import Mathlib

/-
Shallow embedding of `src/batch_generator.py` (daily-drop-backend).

The program is a linear batch loop: per day it calls a generative-text
service, enriches the returned JSON-object record with a cover URL and an
affiliate link, writes a JSON file and a rendered HTML file, and sleeps.
External effects (the generative call, the HTTP HEAD existence check, and
the success/failure of each file write) are supplied by an environment,
one per iteration; everything else is translated directly from the source.
-/

/-- Python exception values that matter to the batch driver.  `noApiKey`
models the `ValueError` raised at module load when the secret is absent
(batch_generator.py lines 20-21); `keyError k` models `KeyError` from
`book[k]`; `genFailure` models any exception escaping
`get_book_recommendation`; `osError p` models an I/O failure opening or
writing the file at path `p` (also used for the template read). -/
inductive PyError where
  | noApiKey : PyError
  | keyError : String → PyError
  | genFailure : PyError
  | osError : String → PyError
deriving DecidableEq, Repr

/-- Lines 15-21: `API_KEY = os.getenv("OPENAI_API_KEY")` followed by
`if not API_KEY: raise ValueError(...)`.  Python `not s` is true for both
`None` and the empty string, so both abort before any batch work. -/
def apiKeyCheck : Option String → Except PyError String
  | none => .error .noApiKey
  | some s => if s = "" then .error .noApiKey else .ok s

/-- Line 24: `AFFILIATE_TAG = "your-tag-20"`. -/
def AFFILIATE_TAG : String := "your-tag-20"

/-- Line 25: `OUTPUT_DIR = "public/content"`. -/
def OUTPUT_DIR : String := "public/content"

/-- A parsed JSON object (the generative response and the enriched record):
an insertion-ordered association list of string fields, modelling a Python
`dict` with string values. -/
abbrev Dict := List (String × String)

/-- `book[k]` lookup, as an `Option` (callers turn `none` into `KeyError`). -/
def dictGet (b : Dict) (k : String) : Option String :=
  match b with
  | [] => none
  | (k0, v) :: rest => if k0 = k then some v else dictGet rest k

/-- `book.get(k, d)`: defaulted access, never raises (line 129). -/
def dictGetD (b : Dict) (k d : String) : String :=
  (dictGet b k).getD d

/-- `book[k] = v`: Python dict assignment keeps the position of an existing
key and appends a new key at the end. -/
def dictSet (b : Dict) (k v : String) : Dict :=
  match b with
  | [] => [(k, v)]
  | (k0, v0) :: rest =>
    if k0 = k then (k, v) :: rest else (k0, v0) :: dictSet rest k v

/-- Outcome of the `requests.head(url, timeout=5)` existence check in
`get_cover_url` (line 90): either the response's status code, or the
request raised (timeout, connection error, ...). -/
inductive HeadOutcome where
  | status : Nat → HeadOutcome
  | failed : HeadOutcome
deriving DecidableEq, Repr

/-- Line 95: the fixed placeholder cover URL. -/
def PLACEHOLDER_URL : String :=
  "https://placehold.co/600x900/EEE/31343C?text=Classic+Literature"

/-- Line 88: the deterministic ISBN-based cover URL with the
default-suppression flag. -/
def coverUrlFor (isbn : String) : String :=
  "https://covers.openlibrary.org/b/isbn/" ++ isbn ++ "-L.jpg?default=false"

/-- Lines 87-95: `get_cover_url`.  Builds the ISBN URL, issues a HEAD check
(whose outcome is the `o` argument), returns the URL on status 200 and the
placeholder on any other status; the bare `except: pass` absorbs every
exception, falling through to the placeholder.  The function is total:
it never raises. -/
def get_cover_url (isbn : String) (o : HeadOutcome) : String :=
  match o with
  | .status c => if c == 200 then coverUrlFor isbn else PLACEHOLDER_URL
  | .failed => PLACEHOLDER_URL

/-- Fuel-driven kernel of Python `str.replace` on character lists: scan left
to right, replacing each non-overlapping occurrence of `pat`.  Fuel is the
input length; each step consumes at least one character. -/
def replFuel (pat rep : List Char) : Nat → List Char → List Char
  | 0, l => l
  | _ + 1, [] => []
  | fuel + 1, c :: cs =>
    if pat.isPrefixOf (c :: cs) then
      rep ++ replFuel pat rep fuel (List.drop pat.length (c :: cs))
    else
      c :: replFuel pat rep fuel cs

/-- Python `s.replace(pat, rep)` for a non-empty pattern (every call in the
source uses the one-character pattern `" "` or a `\x7b\x7bFIELD\x7d\x7d`
placeholder, never the empty string, where Python's semantics differ). -/
def pyReplace (s pat rep : String) : String :=
  if pat.data = [] then s
  else ⟨replFuel pat.data rep.data s.data.length s.data⟩

/-- Line 98: `query = f"{title} {author}".replace(" ", "+")`. -/
def queryTerm (title author : String) : String :=
  pyReplace (title ++ " " ++ author) " " "+"

/-- Lines 97-99: `generate_affiliate_link` — a pure total function of title
and author. -/
def generate_affiliate_link (title author : String) : String :=
  "https://www.amazon.com/s?k=" ++ queryTerm title author
    ++ "&tag=" ++ AFFILIATE_TAG

/-- A calendar date, modelling the date part of a Python `datetime` (both
`strftime` formats used by the program ignore the time of day, and
`timedelta(days=i)` leaves it unchanged). -/
structure Date where
  year : Nat
  month : Nat
  day : Nat
deriving DecidableEq, Repr

/-- Gregorian leap-year rule (modelled from the `datetime` library the
source relies on for date arithmetic). -/
def isLeap (y : Nat) : Bool :=
  y % 4 == 0 && (y % 100 != 0 || y % 400 == 0)

/-- Days in a Gregorian month (modelled from the `datetime` library). -/
def daysInMonth (y m : Nat) : Nat :=
  match m with
  | 2 => if isLeap y then 29 else 28
  | 4 => 30
  | 6 => 30
  | 9 => 30
  | 11 => 30
  | _ => 31

/-- Advance a date by one day (modelled from the `datetime` library). -/
def nextDay (d : Date) : Date :=
  if d.day < daysInMonth d.year d.month then ⟨d.year, d.month, d.day + 1⟩
  else if d.month < 12 then ⟨d.year, d.month + 1, 1⟩
  else ⟨d.year + 1, 1, 1⟩

/-- Line 117: `start_date + timedelta(days=i)`. -/
def addDays (d : Date) : Nat → Date
  | 0 => d
  | n + 1 => nextDay (addDays d n)

/-- Decimal rendering of `n` left-padded with zeros to width `w`, as the
zero-padded `strftime` directives produce. -/
def padNum (w n : Nat) : String :=
  let s := toString n
  ⟨List.replicate (w - s.length) '0' ++ s.data⟩

/-- English month name for `strftime("%B")` (months are 1-12). -/
def monthName : Nat → String
  | 1 => "January"
  | 2 => "February"
  | 3 => "March"
  | 4 => "April"
  | 5 => "May"
  | 6 => "June"
  | 7 => "July"
  | 8 => "August"
  | 9 => "September"
  | 10 => "October"
  | 11 => "November"
  | 12 => "December"
  | _ => ""

/-- Line 118: `current_date.strftime("%Y-%m-%d")` — the filename format. -/
def fmtISO (d : Date) : String :=
  padNum 4 d.year ++ "-" ++ padNum 2 d.month ++ "-" ++ padNum 2 d.day

/-- Line 119: `current_date.strftime("%B %d, %Y")` — the UI format
(`%d` is zero-padded in Python). -/
def fmtDisplay (d : Date) : String :=
  monthName d.month ++ " " ++ padNum 2 d.day ++ ", " ++ padNum 4 d.year


/-- The placeholder/field pairs substituted by the HTML render chain
(lines 140-150), in the order the Python expression evaluates the
`book[...]` accesses (left to right along the `.replace` chain). -/
def renderSlots : List (String × String) :=
  [("\x7b\x7bTITLE\x7d\x7d", "title"),
   ("\x7b\x7bAUTHOR\x7d\x7d", "author"),
   ("\x7b\x7bYEAR\x7d\x7d", "year"),
   ("\x7b\x7bGENRE\x7d\x7d", "genre"),
   ("\x7b\x7bCOUNTRY\x7d\x7d", "country"),
   ("\x7b\x7bCOVER_URL\x7d\x7d", "cover_url"),
   ("\x7b\x7bPLOT\x7d\x7d", "plot"),
   ("\x7b\x7bBUZZ\x7d\x7d", "buzz"),
   ("\x7b\x7bMATTERS\x7d\x7d", "matters"),
   ("\x7b\x7bTASTE\x7d\x7d", "taste"),
   ("\x7b\x7bBUY_LINK\x7d\x7d", "buy_link")]

/-- One step per `.replace(ph, book[k])` of lines 140-150: a missing key
raises `KeyError` at that point and abandons the chain. -/
def renderChain (book : Dict) : List (String × String) → String → Except PyError String
  | [], acc => .ok acc
  | (ph, k) :: rest, acc =>
    match dictGet book k with
    | none => .error (.keyError k)
    | some v => renderChain book rest (pyReplace acc ph v)

/-- Lines 140-151: the full render, ending with the `\x7b\x7bDATE\x7d\x7d`
substitution from the local `display_date` (which cannot raise). -/
def renderHtml (tmpl : String) (book : Dict) (display_date : String) :
    Except PyError String :=
  match renderChain book renderSlots tmpl with
  | .error e => .error e
  | .ok h => .ok (pyReplace h "\x7b\x7bDATE\x7d\x7d" display_date)

/-- Contents written to a file during the batch: the JSON dump of the
enriched record (line 137) or the rendered HTML (line 155). -/
inductive FileContent where
  | jsonFile : Dict → FileContent
  | htmlFile : String → FileContent
deriving DecidableEq, Repr

/-- The first `n` characters of `s`: the content a write interrupted after
`n` characters leaves on disk. -/
def strTake (s : String) (n : Nat) : String :=
  ⟨s.data.take n⟩

/-- Outcome of the HTML persist of lines 154-155,
`with open(html_filename, 'w', ...) as f: f.write(final_html)`.
`ok`: open, write and close all succeed.  `openFail`: `open` itself
raises, so nothing is created or truncated at the path.
`interrupted n`: `open` succeeds — creating or truncating the file — and
the write or close then raises with `n` characters on disk, leaving a
truncated prefix of the rendered HTML behind (with `n` no shorter than the
content, the whole page was flushed before, say, the close failed). -/
inductive WriteOutcome where
  | ok : WriteOutcome
  | openFail : WriteOutcome
  | interrupted : Nat → WriteOutcome
deriving DecidableEq, Repr

/-- The external outcomes one iteration of the loop can observe: the result
of the generative call (`.error` = any exception escaping it, including an
unparseable response), the outcome of the cover HEAD check, whether the
JSON persist of lines 136-137 succeeds, and the detailed outcome of the
HTML persist of lines 154-155.  `jsonOk = false` stands for the `open` of
line 136 raising, so nothing appears at the JSON path; an interrupted
`json.dump` is not modelled separately, because the record serialization
is opaque here and its partial content is representable neither as a
`Dict` nor needed by any property below — the HTML write, whose content
is an explicit string, carries the full three-way `WriteOutcome`. -/
structure IterEnv where
  gen : Except Unit Dict
  hd : HeadOutcome
  jsonOk : Bool
  htmlW : WriteOutcome

/-- Everything observable about one iteration of the loop body
(lines 115-163): the two formatted dates, the exclusion list passed into
the generative call and its value after the iteration, the file writes
performed in order, the enriched record at the moment of the JSON dump
(when reached), whether `time.sleep(1)` ran, and the exception caught at
the iteration boundary, if any. -/
structure IterResult where
  dateId : String
  dateDisplay : String
  excludeUsed : List String
  titlesAfter : List String
  writes : List (String × FileContent)
  enriched : Option Dict
  slept : Bool
  err : Option PyError
deriving DecidableEq, Repr

instance : Inhabited IterResult :=
  ⟨⟨"", "", [], [], [], none, false, none⟩⟩

/-- `os.path.join(OUTPUT_DIR, f"...")` of lines 135 and 153 (POSIX join). -/
def jsonPathOf (date_str : String) : String :=
  OUTPUT_DIR ++ "/" ++ date_str ++ ".json"

def htmlPathOf (date_str : String) : String :=
  OUTPUT_DIR ++ "/" ++ date_str ++ ".html"

/-- The loop body for index `i` (lines 116-163), translated statement by
statement.  `titles` is `generated_titles` on entry.  The `try` block runs
until its first failing step; the `except` clause catches the exception,
so the body always returns, recording the effects performed before the
failure.  Order of effects, as in the source: generative call; evaluate
`book['title']` and append it; set `cover_url` (via defaulted `isbn`
access, never failing); evaluate `book['author']` and set `buy_link`; set
the two date fields; JSON dump; HTML render (field accesses in chain
order); HTML write; `time.sleep(1)`.  The HTML write follows `open('w')`
semantics: once the open succeeds the file exists truncated, so a failure
of the subsequent write or close still leaves a prefix of the rendered
page on disk at the HTML path. -/
def iterOne (tmpl : String) (start : Date) (i : Nat) (titles : List String)
    (env : IterEnv) : IterResult :=
  let current := addDays start i
  let date_str := fmtISO current
  let display_date := fmtDisplay current
  match env.gen with
  | .error _ =>
    ⟨date_str, display_date, titles, titles, [], none, false, some .genFailure⟩
  | .ok book0 =>
    match dictGet book0 "title" with
    | none =>
      ⟨date_str, display_date, titles, titles, [], none, false,
        some (.keyError "title")⟩
    | some t =>
      let titles' := titles ++ [t]
      let book1 := dictSet book0 "cover_url"
        (get_cover_url (dictGetD book0 "isbn" "") env.hd)
      match dictGet book1 "author" with
      | none =>
        ⟨date_str, display_date, titles, titles', [], none, false,
          some (.keyError "author")⟩
      | some a =>
        let book2 := dictSet book1 "buy_link" (generate_affiliate_link t a)
        let book3 := dictSet book2 "date_display" display_date
        let book4 := dictSet book3 "date_id" date_str
        if env.jsonOk then
          let w1 := [(jsonPathOf date_str, FileContent.jsonFile book4)]
          match renderHtml tmpl book4 display_date with
          | .error e =>
            ⟨date_str, display_date, titles, titles', w1, some book4, false,
              some e⟩
          | .ok html =>
            match env.htmlW with
            | .ok =>
              ⟨date_str, display_date, titles, titles',
                w1 ++ [(htmlPathOf date_str, FileContent.htmlFile html)],
                some book4, true, none⟩
            | .openFail =>
              ⟨date_str, display_date, titles, titles', w1, some book4, false,
                some (.osError (htmlPathOf date_str))⟩
            | .interrupted n =>
              ⟨date_str, display_date, titles, titles',
                w1 ++ [(htmlPathOf date_str,
                  FileContent.htmlFile (strTake html n))],
                some book4, false,
                some (.osError (htmlPathOf date_str))⟩
        else
          ⟨date_str, display_date, titles, titles', [], some book4, false,
            some (.osError (jsonPathOf date_str))⟩

/-- The `for i in range(days_to_generate)` loop (line 115), threading
`generated_titles` between iterations; `env` supplies the external
outcomes of iteration `i`. -/
def runFrom (tmpl : String) (start : Date) (env : Nat → IterEnv)
    (titles : List String) (i : Nat) : Nat → List IterResult
  | 0 => []
  | n + 1 =>
    let r := iterOne tmpl start i titles (env i)
    r :: runFrom tmpl start env r.titlesAfter (i + 1) n

/-- Result of one call of `run_batch_job`: the per-iteration results and
the exception escaping the function, if any (`fatal = none` means normal
return). -/
structure BatchResult where
  iters : List IterResult
  fatal : Option PyError
deriving DecidableEq, Repr

/-- Lines 106-165: `run_batch_job(days_to_generate, start_date)`.
`load_template()` (line 111) runs before the loop and outside any
exception handler, so its failure (`tmplRes = .error`) escapes the
function before any iteration runs; otherwise every iteration's exception
is caught at the iteration boundary and the loop completes. -/
def run_batch_job (days : Nat) (start : Date)
    (tmplRes : Except PyError String) (env : Nat → IterEnv) : BatchResult :=
  match tmplRes with
  | .error e => ⟨[], some e⟩
  | .ok tmpl => ⟨runFrom tmpl start env [] 0 days, none⟩

/-- The `i`-th iteration's result of a batch run. -/
def iterAt (r : BatchResult) (i : Nat) : IterResult :=
  r.iters.getD i default

/-- What iteration `j` contributes to the exclusion list: its title exactly
when the generative call succeeded and the response has a `title` field —
independent of every later step of that iteration. -/
def contrib (env : Nat → IterEnv) (j : Nat) : List String :=
  match (env j).gen with
  | .error _ => []
  | .ok b =>
    match dictGet b "title" with
    | none => []
    | some t => [t]

/-- Concatenated contributions of iterations `s, s+1, ..., s+n-1`. -/
def contribRange (env : Nat → IterEnv) (s : Nat) : Nat → List String
  | 0 => []
  | n + 1 => contribRange env s n ++ contrib env (s + n)

/-- The file system as a map from path to latest content. -/
def FileSys : Type := String → Option FileContent

/-- `open(path, 'w')` then write: replaces whatever was at `path`. -/
def fsWrite (fs : FileSys) (p : String) (c : FileContent) : FileSys :=
  fun q => if q = p then some c else fs q

/-- Apply a list of writes in order. -/
def applyWrites (fs : FileSys) (ws : List (String × FileContent)) : FileSys :=
  ws.foldl (fun acc w => fsWrite acc w.1 w.2) fs

/-- All writes a batch run performs, in order. -/
def batchWrites (r : BatchResult) : List (String × FileContent) :=
  r.iters.flatMap (fun it => it.writes)

/-- The file system after running a batch on top of a prior state `fs`. -/
def applyBatch (fs : FileSys) (r : BatchResult) : FileSys :=
  applyWrites fs (batchWrites r)

/-- Whether a write carries JSON content (a line-137 `json.dump`). -/
def isJsonWrite (w : String × FileContent) : Bool :=
  match w.2 with
  | .jsonFile _ => true
  | .htmlFile _ => false

/-- The fields of the generative response that lines 126-150 access by
direct `book[k]` indexing (a missing one raises `KeyError`); `isbn` is
absent from this list because line 129 uses the defaulted
`book.get('isbn', '')` access instead. -/
def requiredKeys : List String :=
  ["title", "author", "year", "genre", "country", "plot", "buzz",
   "matters", "taste"]

/-- Concrete start date used by witness runs. -/
def d0 : Date := ⟨2024, 1, 1⟩

/-- A complete generative response, used by witness runs. -/
def bookFull : Dict :=
  [("title", "Book A"), ("author", "Auth"), ("year", "1960"), ("genre", "G"),
   ("country", "C"), ("isbn", "978"), ("plot", "P"), ("buzz", "B"),
   ("matters", "M"), ("taste", "T")]

/-- A complete generative response except for the optional `isbn` field. -/
def bookNoIsbn : Dict :=
  [("title", "Book A"), ("author", "Auth"), ("year", "1960"), ("genre", "G"),
   ("country", "C"), ("plot", "P"), ("buzz", "B"), ("matters", "M"),
   ("taste", "T")]

/-- Environment where every external step succeeds (cover check fails,
which only selects the placeholder URL). -/
def envSucc : Nat → IterEnv := fun _ => ⟨.ok bookFull, .failed, true, .ok⟩

/-- Environment where every iteration fails opening the HTML file. -/
def envHtmlFail : Nat → IterEnv := fun _ => ⟨.ok bookFull, .failed, true, .openFail⟩

/-- Environment where every iteration's HTML write is interrupted after 3
characters, past a successful open: a truncated HTML file stays on disk. -/
def envHtmlMid : Nat → IterEnv :=
  fun _ => ⟨.ok bookFull, .failed, true, .interrupted 3⟩

/-- Environment where every generative call raises. -/
def envGenFail : Nat → IterEnv := fun _ => ⟨.error (), .failed, true, .ok⟩

/-- Environment whose generative response lacks the `isbn` field. -/
def envNoIsbn : Nat → IterEnv := fun _ => ⟨.ok bookNoIsbn, .failed, true, .ok⟩

/-! ### Basic facts about the embedded operations -/

lemma dictGet_dictSet_self (b : Dict) (k v : String) :
    dictGet (dictSet b k v) k = some v := by
  induction b with
  | nil => simp [dictGet, dictSet]
  | cons p rest ih =>
    obtain ⟨k0, v0⟩ := p
    by_cases h : k0 = k <;> simp [dictGet, dictSet, h, ih]

lemma dictGet_dictSet_ne (b : Dict) (k v k' : String) (h : k' ≠ k) :
    dictGet (dictSet b k v) k' = dictGet b k' := by
  have h' : ¬ k = k' := fun hh => h hh.symm
  induction b with
  | nil => simp [dictGet, dictSet, h']
  | cons p rest ih =>
    obtain ⟨k0, v0⟩ := p
    by_cases h0 : k0 = k
    · subst h0
      simp [dictGet, dictSet, h']
    · simp [dictGet, dictSet, h0, ih]

lemma iterOne_dateId (tmpl : String) (start : Date) (i : Nat)
    (titles : List String) (e : IterEnv) :
    (iterOne tmpl start i titles e).dateId = fmtISO (addDays start i) := by
  simp only [iterOne]
  repeat' split
  all_goals rfl

lemma iterOne_dateDisplay (tmpl : String) (start : Date) (i : Nat)
    (titles : List String) (e : IterEnv) :
    (iterOne tmpl start i titles e).dateDisplay = fmtDisplay (addDays start i) := by
  simp only [iterOne]
  repeat' split
  all_goals rfl

lemma iterOne_excludeUsed (tmpl : String) (start : Date) (i : Nat)
    (titles : List String) (e : IterEnv) :
    (iterOne tmpl start i titles e).excludeUsed = titles := by
  simp only [iterOne]
  repeat' split
  all_goals rfl

lemma iterOne_titlesAfter (tmpl : String) (start : Date) (i : Nat)
    (titles : List String) (env : Nat → IterEnv) :
    (iterOne tmpl start i titles (env i)).titlesAfter = titles ++ contrib env i := by
  cases hg : (env i).gen with
  | error u => simp [iterOne, contrib, hg]
  | ok b =>
    cases ht : dictGet b "title" with
    | none => simp [iterOne, contrib, hg, ht]
    | some t =>
      simp only [iterOne, contrib, hg, ht]
      repeat' split
      all_goals rfl

lemma iterOne_slept_iff (tmpl : String) (start : Date) (i : Nat)
    (titles : List String) (e : IterEnv) :
    (iterOne tmpl start i titles e).slept = true ↔
      (iterOne tmpl start i titles e).err = none := by
  simp only [iterOne]
  repeat' split
  all_goals simp

lemma contribRange_succ_front (env : Nat → IterEnv) (s k : Nat) :
    contrib env s ++ contribRange env (s + 1) k = contribRange env s (k + 1) := by
  induction k with
  | zero => simp [contribRange]
  | succ k ih =>
    have hs : s + 1 + k = s + (k + 1) := by omega
    calc contrib env s ++ contribRange env (s + 1) (k + 1)
        = contrib env s ++ (contribRange env (s + 1) k ++ contrib env (s + 1 + k)) := by
          simp [contribRange]
      _ = (contrib env s ++ contribRange env (s + 1) k) ++ contrib env (s + 1 + k) := by
          simp [List.append_assoc]
      _ = contribRange env s (k + 1) ++ contrib env (s + (k + 1)) := by
          rw [ih, hs]
      _ = contribRange env s (k + 2) := by simp [contribRange]

lemma runFrom_length (tmpl : String) (start : Date) (env : Nat → IterEnv) :
    ∀ (n : Nat) (titles : List String) (i : Nat),
      (runFrom tmpl start env titles i n).length = n := by
  intro n
  induction n with
  | zero => intro titles i; rfl
  | succ n ih => intro titles i; simp [runFrom, ih]

lemma runFrom_getD (tmpl : String) (start : Date) (env : Nat → IterEnv) :
    ∀ (n j i0 : Nat) (titles0 : List String), j < n →
      (runFrom tmpl start env titles0 i0 n).getD j default =
        iterOne tmpl start (i0 + j) (titles0 ++ contribRange env i0 j)
          (env (i0 + j)) := by
  intro n
  induction n with
  | zero => intro j i0 titles0 h; omega
  | succ n ih =>
    intro j i0 titles0 h
    cases j with
    | zero => simp [runFrom, contribRange]
    | succ k =>
      have hk : k < n := by omega
      have step := iterOne_titlesAfter tmpl start i0 titles0 env
      calc (runFrom tmpl start env titles0 i0 (n + 1)).getD (k + 1) default
          = (runFrom tmpl start env
              (iterOne tmpl start i0 titles0 (env i0)).titlesAfter
              (i0 + 1) n).getD k default := by
            simp [runFrom]
        _ = iterOne tmpl start (i0 + 1 + k)
              ((titles0 ++ contrib env i0) ++ contribRange env (i0 + 1) k)
              (env (i0 + 1 + k)) := by
            rw [ih k (i0 + 1) _ hk, step]
        _ = iterOne tmpl start (i0 + (k + 1))
              (titles0 ++ contribRange env i0 (k + 1)) (env (i0 + (k + 1))) := by
            have hik : i0 + 1 + k = i0 + (k + 1) := by omega
            rw [List.append_assoc, contribRange_succ_front, hik]

lemma iterAt_run (days : Nat) (start : Date) (tmpl : String)
    (env : Nat → IterEnv) (j : Nat) (h : j < days) :
    iterAt (run_batch_job days start (.ok tmpl) env) j =
      iterOne tmpl start j (contribRange env 0 j) (env j) := by
  have := runFrom_getD tmpl start env days j 0 [] h
  simpa [iterAt, run_batch_job] using this

lemma iterOne_success_shape (tmpl : String) (start : Date) (i : Nat)
    (titles : List String) (e : IterEnv)
    (h : (iterOne tmpl start i titles e).err = none) :
    ∃ b html, (iterOne tmpl start i titles e).writes =
      [(jsonPathOf (fmtISO (addDays start i)), FileContent.jsonFile b),
       (htmlPathOf (fmtISO (addDays start i)), FileContent.htmlFile html)] ∧
      (iterOne tmpl start i titles e).enriched = some b := by
  revert h
  simp only [iterOne]
  repeat' split
  all_goals intro h
  all_goals first
    | exact ⟨_, _, rfl, rfl⟩
    | cases h

lemma iterOne_titlesAfter_of_title (tmpl : String) (start : Date) (i : Nat)
    (titles : List String) (e : IterEnv) (b : Dict) (t : String)
    (hg : e.gen = .ok b) (ht : dictGet b "title" = some t) :
    (iterOne tmpl start i titles e).titlesAfter = titles ++ [t] := by
  simp only [iterOne, hg, ht]
  repeat' split
  all_goals rfl

lemma iterOne_err_writes (tmpl : String) (start : Date) (i : Nat)
    (titles : List String) (e : IterEnv)
    (h : (iterOne tmpl start i titles e).err ≠ none) :
    (iterOne tmpl start i titles e).writes = [] ∨
      ∃ b, (iterOne tmpl start i titles e).enriched = some b ∧
        ((iterOne tmpl start i titles e).writes =
          [(jsonPathOf (fmtISO (addDays start i)), FileContent.jsonFile b)] ∨
         ∃ full n,
           renderHtml tmpl b (fmtDisplay (addDays start i)) = .ok full ∧
           (iterOne tmpl start i titles e).writes =
             [(jsonPathOf (fmtISO (addDays start i)), FileContent.jsonFile b),
              (htmlPathOf (fmtISO (addDays start i)),
                FileContent.htmlFile (strTake full n))]) := by
  revert h
  simp only [iterOne]
  repeat' split
  all_goals intro h
  all_goals first
    | exact Or.inl rfl
    | exact Or.inr ⟨_, rfl, Or.inl rfl⟩
    | exact Or.inr ⟨_, rfl, Or.inr ⟨_, _, by assumption, rfl⟩⟩
    | exact absurd rfl h

lemma renderChain_error_of_missing (book : Dict) :
    ∀ (slots : List (String × String)) (acc : String),
      (∃ p ∈ slots, dictGet book p.2 = none) →
      ∃ er, renderChain book slots acc = .error er := by
  intro slots
  induction slots with
  | nil => intro acc h; simp at h
  | cons p rest ih =>
    intro acc h
    obtain ⟨q, hq, hnone⟩ := h
    obtain ⟨ph0, k0⟩ := p
    cases hk : dictGet book k0 with
    | none => exact ⟨.keyError k0, by simp [renderChain, hk]⟩
    | some v =>
      rcases List.mem_cons.mp hq with heq | hmem
      · subst heq; simp [hk] at hnone
      · obtain ⟨er, her⟩ := ih (pyReplace acc ph0 v) ⟨q, hmem, hnone⟩
        exact ⟨er, by simp [renderChain, hk, her]⟩

lemma renderChain_ok_of_present (book : Dict) :
    ∀ (slots : List (String × String)) (acc : String),
      (∀ p ∈ slots, (dictGet book p.2).isSome) →
      ∃ h, renderChain book slots acc = .ok h := by
  intro slots
  induction slots with
  | nil => intro acc _; exact ⟨acc, rfl⟩
  | cons p rest ih =>
    intro acc hall
    obtain ⟨ph0, k0⟩ := p
    have h0 := hall (ph0, k0) (by simp)
    cases hk : dictGet book k0 with
    | none => simp [hk] at h0
    | some v =>
      obtain ⟨h, hh⟩ := ih (pyReplace acc ph0 v) (fun q hq => hall q (by simp [hq]))
      exact ⟨h, by simp [renderChain, hk, hh]⟩

lemma fsWrite_self (fs : FileSys) (p : String) (c : FileContent) :
    fsWrite fs p c p = some c := by
  simp [fsWrite]

lemma fsWrite_ne (fs : FileSys) (p q : String) (c : FileContent)
    (h : q ≠ p) : fsWrite fs p c q = fs q := by
  simp [fsWrite, h]

lemma applyWrites_not_mem (p : String) :
    ∀ (ws : List (String × FileContent)) (fs : FileSys),
      p ∉ ws.map Prod.fst → applyWrites fs ws p = fs p := by
  intro ws
  induction ws with
  | nil => intro fs _; rfl
  | cons w rest ih =>
    intro fs h
    have h1 : p ≠ w.1 := by
      intro hp; exact h (by simp [hp])
    have h2 : p ∉ rest.map Prod.fst := by
      intro hp; exact h (by simp [hp])
    calc applyWrites fs (w :: rest) p
        = applyWrites (fsWrite fs w.1 w.2) rest p := rfl
      _ = fsWrite fs w.1 w.2 p := ih _ h2
      _ = fs p := fsWrite_ne _ _ _ _ h1

lemma applyWrites_mem_indep (p : String) :
    ∀ (ws : List (String × FileContent)) (fs1 fs2 : FileSys),
      p ∈ ws.map Prod.fst →
      applyWrites fs1 ws p = applyWrites fs2 ws p := by
  intro ws
  induction ws with
  | nil => intro fs1 fs2 h; simp at h
  | cons w rest ih =>
    intro fs1 fs2 h
    by_cases hm : p ∈ rest.map Prod.fst
    · exact ih _ _ hm
    · have hp : p = w.1 := by
        simp only [List.map_cons, List.mem_cons] at h
        rcases h with h1 | h1
        · exact h1
        · exact absurd h1 hm
      calc applyWrites fs1 (w :: rest) p
          = applyWrites (fsWrite fs1 w.1 w.2) rest p := rfl
        _ = fsWrite fs1 w.1 w.2 p := applyWrites_not_mem p rest _ hm
        _ = some w.2 := by rw [hp]; exact fsWrite_self _ _ _
        _ = fsWrite fs2 w.1 w.2 p := by rw [hp]; exact (fsWrite_self _ _ _).symm
        _ = applyWrites (fsWrite fs2 w.1 w.2) rest p := (applyWrites_not_mem p rest _ hm).symm
        _ = applyWrites fs2 (w :: rest) p := rfl

lemma applyWrites_mem_isSome (p : String) :
    ∀ (ws : List (String × FileContent)) (fs : FileSys),
      p ∈ ws.map Prod.fst → (applyWrites fs ws p).isSome = true := by
  intro ws
  induction ws with
  | nil => intro fs h; simp at h
  | cons w rest ih =>
    intro fs h
    by_cases hm : p ∈ rest.map Prod.fst
    · exact ih _ hm
    · have hp : p = w.1 := by
        simp only [List.map_cons, List.mem_cons] at h
        rcases h with h1 | h1
        · exact h1
        · exact absurd h1 hm
      have : applyWrites (fsWrite fs w.1 w.2) rest p = some w.2 := by
        rw [applyWrites_not_mem p rest _ hm, hp]
        exact fsWrite_self _ _ _
      calc (applyWrites fs (w :: rest) p).isSome
          = (applyWrites (fsWrite fs w.1 w.2) rest p).isSome := rfl
        _ = true := by rw [this]; rfl

lemma coverUrlFor_ne_empty (isbn : String) : coverUrlFor isbn ≠ "" := by
  intro h
  have hd : (coverUrlFor isbn).data = ("" : String).data := congrArg String.data h
  rw [coverUrlFor, String.data_append, String.data_append] at hd
  have h1 : ("https://covers.openlibrary.org/b/isbn/" : String).data =
      'h' :: ("ttps://covers.openlibrary.org/b/isbn/" : String).data := rfl
  have h2 : ("" : String).data = [] := rfl
  rw [h1, h2] at hd
  simp at hd

lemma get_cover_url_non200 (isbn : String) (o : HeadOutcome)
    (h : o ≠ .status 200) : get_cover_url isbn o = PLACEHOLDER_URL := by
  cases o with
  | failed => rfl
  | status c =>
    have hc : c ≠ 200 := fun hh => h (by rw [hh])
    simp [get_cover_url, hc]

lemma iterOne_writes_paths (tmpl : String) (start : Date) (i : Nat)
    (titles : List String) (e : IterEnv) :
    ∀ w ∈ (iterOne tmpl start i titles e).writes,
      w.1 = jsonPathOf (fmtISO (addDays start i)) ∨
      w.1 = htmlPathOf (fmtISO (addDays start i)) := by
  intro w hw
  by_cases herr : (iterOne tmpl start i titles e).err = none
  · obtain ⟨b, html, hws, _⟩ := iterOne_success_shape tmpl start i titles e herr
    rw [hws] at hw
    rcases List.mem_cons.mp hw with rfl | hw2
    · exact Or.inl rfl
    · rcases List.mem_cons.mp hw2 with rfl | hw3
      · exact Or.inr rfl
      · simp at hw3
  · rcases iterOne_err_writes tmpl start i titles e herr with
      hws | ⟨b, henr, hws | ⟨full, n, hrend, hws⟩⟩
    · rw [hws] at hw; simp at hw
    · rw [hws] at hw
      rcases List.mem_cons.mp hw with rfl | hw2
      · exact Or.inl rfl
      · simp at hw2
    · rw [hws] at hw
      rcases List.mem_cons.mp hw with rfl | hw2
      · exact Or.inl rfl
      · rcases List.mem_cons.mp hw2 with rfl | hw3
        · exact Or.inr rfl
        · simp at hw3

lemma iterOne_jsonCount (tmpl : String) (start : Date) (i : Nat)
    (titles : List String) (e : IterEnv) :
    ((iterOne tmpl start i titles e).writes.filter isJsonWrite).length ≤ 1 := by
  by_cases herr : (iterOne tmpl start i titles e).err = none
  · obtain ⟨b, html, hws, _⟩ := iterOne_success_shape tmpl start i titles e herr
    rw [hws]
    simp [isJsonWrite]
  · rcases iterOne_err_writes tmpl start i titles e herr with
      hws | ⟨b, henr, hws | ⟨full, n, hrend, hws⟩⟩
    · rw [hws]; simp
    · rw [hws]; simp [isJsonWrite]
    · rw [hws]; simp [isJsonWrite]

lemma runFrom_jsonCount (tmpl : String) (start : Date) (env : Nat → IterEnv) :
    ∀ (n : Nat) (titles : List String) (i : Nat),
      (((runFrom tmpl start env titles i n).flatMap
        (fun r => r.writes)).filter isJsonWrite).length ≤ n := by
  intro n
  induction n with
  | zero => intro titles i; simp [runFrom]
  | succ n ih =>
    intro titles i
    have hbound := iterOne_jsonCount tmpl start i titles (env i)
    have hrec := ih (iterOne tmpl start i titles (env i)).titlesAfter (i + 1)
    calc (((runFrom tmpl start env titles i (n + 1)).flatMap
            (fun r => r.writes)).filter isJsonWrite).length
        = (((iterOne tmpl start i titles (env i)).writes.filter isJsonWrite)
            ++ (((runFrom tmpl start env
                  (iterOne tmpl start i titles (env i)).titlesAfter (i + 1) n).flatMap
                (fun r => r.writes)).filter isJsonWrite)).length := by
          simp [runFrom, List.filter_append]
      _ ≤ 1 + n := by
          rw [List.length_append]
          exact Nat.add_le_add hbound hrec
      _ = n + 1 := by omega

lemma getD_mem_of_lt {α : Type} : ∀ (l : List α) (j : Nat) (d : α),
    j < l.length → l.getD j d ∈ l := by
  intro l
  induction l with
  | nil => intro j d h; simp at h
  | cons a rest ih =>
    intro j d h
    cases j with
    | zero => simp [List.getD_cons_zero]
    | succ k =>
      rw [List.getD_cons_succ]
      exact List.mem_cons_of_mem a (ih k d (by simpa using h))

lemma json_path_mem_batch (days : Nat) (start : Date) (tmpl : String)
    (env : Nat → IterEnv) (j : Nat) (h : j < days)
    (hsucc : (iterAt (run_batch_job days start (.ok tmpl) env) j).err = none) :
    jsonPathOf (fmtISO (addDays start j)) ∈
      (batchWrites (run_batch_job days start (.ok tmpl) env)).map Prod.fst := by
  have hlen : (run_batch_job days start (.ok tmpl) env).iters.length = days := by
    simp [run_batch_job, runFrom_length]
  have hit : iterAt (run_batch_job days start (.ok tmpl) env) j ∈
      (run_batch_job days start (.ok tmpl) env).iters :=
    getD_mem_of_lt _ j default (by rw [hlen]; exact h)
  rw [iterAt_run days start tmpl env j h] at hsucc
  obtain ⟨b, html, hws, _⟩ :=
    iterOne_success_shape tmpl start j (contribRange env 0 j) (env j) hsucc
  have hw : (jsonPathOf (fmtISO (addDays start j)), FileContent.jsonFile b) ∈
      (iterAt (run_batch_job days start (.ok tmpl) env) j).writes := by
    rw [iterAt_run days start tmpl env j h, hws]
    simp
  have hbw : (jsonPathOf (fmtISO (addDays start j)), FileContent.jsonFile b) ∈
      batchWrites (run_batch_job days start (.ok tmpl) env) :=
    List.mem_flatMap.mpr ⟨_, hit, hw⟩
  exact List.mem_map.mpr ⟨_, hbw, rfl⟩

lemma requiredKeys_facts :
    ∀ k ∈ requiredKeys,
      k ≠ "cover_url" ∧ k ≠ "buy_link" ∧ k ≠ "date_display" ∧
      k ≠ "date_id" ∧ k ∈ renderSlots.map Prod.snd := by
  intro k hk
  fin_cases hk <;>
    exact ⟨by decide, by decide, by decide, by decide, by decide⟩

lemma dictGet_enrich_other (b : Dict) (cu bl dd di k : String)
    (h1 : k ≠ "cover_url") (h2 : k ≠ "buy_link") (h3 : k ≠ "date_display")
    (h4 : k ≠ "date_id") :
    dictGet (dictSet (dictSet (dictSet (dictSet b "cover_url" cu)
      "buy_link" bl) "date_display" dd) "date_id" di) k = dictGet b k := by
  rw [dictGet_dictSet_ne _ _ _ _ h4, dictGet_dictSet_ne _ _ _ _ h3,
    dictGet_dictSet_ne _ _ _ _ h2, dictGet_dictSet_ne _ _ _ _ h1]

lemma dictGet_enrich_cover (b : Dict) (cu bl dd di : String) :
    dictGet (dictSet (dictSet (dictSet (dictSet b "cover_url" cu)
      "buy_link" bl) "date_display" dd) "date_id" di) "cover_url" = some cu := by
  rw [dictGet_dictSet_ne _ _ _ _ (by decide), dictGet_dictSet_ne _ _ _ _ (by decide),
    dictGet_dictSet_ne _ _ _ _ (by decide), dictGet_dictSet_self]

lemma dictGet_enrich_buy (b : Dict) (cu bl dd di : String) :
    dictGet (dictSet (dictSet (dictSet (dictSet b "cover_url" cu)
      "buy_link" bl) "date_display" dd) "date_id" di) "buy_link" = some bl := by
  rw [dictGet_dictSet_ne _ _ _ _ (by decide), dictGet_dictSet_ne _ _ _ _ (by decide),
    dictGet_dictSet_self]

/-! ### The claims -/

/-- Claim C1, counterexample to the claim as stated.  The claim says a day
whose iteration raises any exception never has its title in the exclusion
list passed to later generative calls.  In this run iteration 0 raises (the
HTML write fails), yet its title "Book A" is in the exclusion list after
iteration 0 and is passed to iteration 1's generative call: line 126
appends the title immediately after the generative call, before the steps
that can still fail. -/
theorem c1_counterexample :
    (iterAt (run_batch_job 2 d0 (.ok "x") envHtmlFail) 0).err ≠ none ∧
    (iterAt (run_batch_job 2 d0 (.ok "x") envHtmlFail) 0).titlesAfter = ["Book A"] ∧
    (iterAt (run_batch_job 2 d0 (.ok "x") envHtmlFail) 1).excludeUsed = ["Book A"] := by
  decide

/-- Claim C1, amended.  After iteration `j` the exclusion list contains
exactly the titles of those iterations `0..j` whose generative call
succeeded and returned a `title` field (`contribRange`), independent of
whether the rest of the iteration succeeded; an iteration failing at or
before the title access contributes nothing.  The list passed into
iteration `j`'s generative call is the same list for `0..j-1`. -/
theorem c1_exclusion_list_amended (days : Nat) (start : Date) (tmpl : String)
    (env : Nat → IterEnv) (j : Nat) (h : j < days) :
    (iterAt (run_batch_job days start (.ok tmpl) env) j).excludeUsed =
      contribRange env 0 j ∧
    (iterAt (run_batch_job days start (.ok tmpl) env) j).titlesAfter =
      contribRange env 0 (j + 1) := by
  rw [iterAt_run days start tmpl env j h]
  refine ⟨iterOne_excludeUsed _ _ _ _ _, ?_⟩
  rw [iterOne_titlesAfter tmpl start j (contribRange env 0 j) env]
  simp [contribRange]

/-- Witness for the amended claim C1 at a concrete two-day run whose first
iteration fails at the HTML write. -/
theorem c1_witness :
    (iterAt (run_batch_job 2 d0 (.ok "x") envHtmlFail) 1).excludeUsed = ["Book A"] :=
  ((c1_exclusion_list_amended 2 d0 "x" envHtmlFail 1 (by decide)).1).trans (by decide)

/-- Claim C2, counterexample to the claim as stated.  The claim allows only
the missing-API-key configuration error to terminate the process, but a
failing `load_template()` read (line 111, before the loop and outside any
handler) also escapes `run_batch_job` and is not the configuration
error. -/
theorem c2_counterexample :
    (run_batch_job 1 d0 (.error (.osError "template.html")) envSucc).fatal =
      some (.osError "template.html") ∧
    PyError.osError "template.html" ≠ PyError.noApiKey := by
  decide

/-- Claim C2, amended.  A missing (or empty) API-key secret aborts at
module load, before any batch work; a template-read failure in
`run_batch_job`, before the loop, also escapes and terminates the batch;
but with the template read every failure raised inside an iteration is
caught at the iteration boundary and the loop always runs to completion
through all `days` iterations. -/
theorem c2_error_propagation_amended :
    apiKeyCheck none = .error .noApiKey ∧
    apiKeyCheck (some "") = .error .noApiKey ∧
    (∀ (days : Nat) (start : Date) (env : Nat → IterEnv) (e : PyError),
      (run_batch_job days start (.error e) env).fatal = some e) ∧
    (∀ (days : Nat) (start : Date) (tmpl : String) (env : Nat → IterEnv),
      (run_batch_job days start (.ok tmpl) env).fatal = none ∧
      (run_batch_job days start (.ok tmpl) env).iters.length = days) := by
  refine ⟨rfl, rfl, fun _ _ _ _ => rfl, fun days start tmpl env => ⟨rfl, ?_⟩⟩
  simp [run_batch_job, runFrom_length]

/-- Claim C3.  For every ISBN and every outcome of the HEAD existence
check, `get_cover_url` never returns an empty string (and, being a total
function over all check outcomes including a raising request, never
raises); it returns the deterministic ISBN URL exactly when the check
reports status 200, and the fixed placeholder URL in every other case. -/
theorem c3_cover_resolver_total (isbn : String) (o : HeadOutcome) :
    get_cover_url isbn o ≠ "" ∧
    (o = .status 200 → get_cover_url isbn o = coverUrlFor isbn) ∧
    (o ≠ .status 200 → get_cover_url isbn o = PLACEHOLDER_URL) := by
  refine ⟨?_, ?_, fun h => get_cover_url_non200 isbn o h⟩
  · by_cases h : o = .status 200
    · subst h
      simpa [get_cover_url] using coverUrlFor_ne_empty isbn
    · rw [get_cover_url_non200 isbn o h]
      decide
  · intro h
    subst h
    simp [get_cover_url]

/-- Witness for claim C3 at a concrete ISBN, for a successful check and for
a raising request. -/
theorem c3_witness :
    get_cover_url "9780141439518" (.status 200) =
      coverUrlFor "9780141439518" ∧
    get_cover_url "9780141439518" HeadOutcome.failed = PLACEHOLDER_URL :=
  ⟨(c3_cover_resolver_total "9780141439518" (.status 200)).2.1 rfl,
   (c3_cover_resolver_total "9780141439518" HeadOutcome.failed).2.2 (by decide)⟩

/-- Claim C5.  The link builder is a pure total function: for every title
and author it yields the URL made of the fixed search endpoint, the query
term obtained by joining title and author with a space and replacing
spaces by `+`, and the fixed affiliate tag appended at the end. -/
theorem c5_link_builder_pure (title author : String) :
    (generate_affiliate_link title author).data =
      ("https://www.amazon.com/s?k=" : String).data
        ++ (queryTerm title author).data
        ++ ("&tag=" : String).data ++ AFFILIATE_TAG.data ∧
    queryTerm title author = pyReplace (title ++ " " ++ author) " " "+" := by
  constructor
  · simp [generate_affiliate_link, String.data_append]
  · rfl

/-- Claim C6, counterexample to the claim as stated.  The claim says the
fixed polite delay applies uniformly to every iteration including failing
ones, but `time.sleep(1)` (line 160) sits inside the `try` block after all
the iteration's work, so an iteration that raises skips it: here the
generative call fails and no sleep happens. -/
theorem c6_counterexample :
    (iterAt (run_batch_job 1 d0 (.ok "x") envGenFail) 0).err ≠ none ∧
    (iterAt (run_batch_job 1 d0 (.ok "x") envGenFail) 0).slept = false := by
  decide

/-- Claim C6, amended.  The fixed 1-second delay runs exactly at the end of
each successful iteration (including the final one); an iteration that
fails anywhere skips the delay. -/
theorem c6_delay_only_on_success (days : Nat) (start : Date) (tmpl : String)
    (env : Nat → IterEnv) (j : Nat) (h : j < days) :
    (iterAt (run_batch_job days start (.ok tmpl) env) j).slept = true ↔
      (iterAt (run_batch_job days start (.ok tmpl) env) j).err = none := by
  rw [iterAt_run days start tmpl env j h]
  exact iterOne_slept_iff _ _ _ _ _

/-- Witness for the amended claim C6 at a concrete successful run. -/
theorem c6_witness :
    (iterAt (run_batch_job 1 d0 (.ok "x") envSucc) 0).slept = true :=
  (c6_delay_only_on_success 1 d0 "x" envSucc 0 (by decide)).mpr (by decide)

/-- Claim C8.  HTML rendering is mandatory: `load_template()` runs before
the loop and outside any exception handler (line 111), so a failing
template read escapes `run_batch_job` before any iteration runs and no
output file is written. -/
theorem c8_template_read_aborts_batch (days : Nat) (start : Date)
    (env : Nat → IterEnv) (e : PyError) :
    (run_batch_job days start (.error e) env).fatal = some e ∧
    (run_batch_job days start (.error e) env).iters = [] ∧
    batchWrites (run_batch_job days start (.error e) env) = [] :=
  ⟨rfl, rfl, rfl⟩

/-- Claim C4.  A batch over `days` days runs exactly `days` iterations and
writes at most `days` JSON files; iteration `j`'s date id is
`start_date + j` days rendered in the ISO `YYYY-MM-DD` format, its display
date is the long-form `%B %d, %Y` rendering (used only for display
fields), and every file the iteration writes lives at
`OUTPUT_DIR/<date id>.json` or `OUTPUT_DIR/<date id>.html`, so the JSON
filename stem is the ISO date id. -/
theorem c4_date_derivation (days : Nat) (start : Date) (tmpl : String)
    (env : Nat → IterEnv) :
    (run_batch_job days start (.ok tmpl) env).iters.length = days ∧
    ((batchWrites (run_batch_job days start (.ok tmpl) env)).filter
      isJsonWrite).length ≤ days ∧
    ∀ j, j < days →
      (iterAt (run_batch_job days start (.ok tmpl) env) j).dateId =
        fmtISO (addDays start j) ∧
      (iterAt (run_batch_job days start (.ok tmpl) env) j).dateDisplay =
        fmtDisplay (addDays start j) ∧
      ∀ w ∈ (iterAt (run_batch_job days start (.ok tmpl) env) j).writes,
        w.1 = jsonPathOf (fmtISO (addDays start j)) ∨
        w.1 = htmlPathOf (fmtISO (addDays start j)) := by
  refine ⟨by simp [run_batch_job, runFrom_length], ?_, ?_⟩
  · simpa [run_batch_job, batchWrites] using
      runFrom_jsonCount tmpl start env days [] 0
  · intro j hj
    rw [iterAt_run days start tmpl env j hj]
    exact ⟨iterOne_dateId _ _ _ _ _, iterOne_dateDisplay _ _ _ _ _,
      iterOne_writes_paths _ _ _ _ _⟩

/-- Witness for claim C4 at a concrete one-day run from 2024-01-01. -/
theorem c4_witness :
    (run_batch_job 1 d0 (.ok "x") envSucc).iters.length = 1 ∧
    (iterAt (run_batch_job 1 d0 (.ok "x") envSucc) 0).dateId = "2024-01-01" :=
  ⟨(c4_date_derivation 1 d0 "x" envSucc).1,
   (((c4_date_derivation 1 d0 "x" envSucc).2.2 0 (by decide)).1).trans (by decide)⟩

/-- Claim C7.  Persisting is an unconditional overwrite with no read-back
or merge: for any successful iteration `j`, the final file-system content
at the date's JSON path after applying the batch is the same whatever was
there before (in particular, when a previous run had already written that
date, its file is replaced by the new record without being read), and the
path is occupied after the run. -/
theorem c7_persist_overwrites (days : Nat) (start : Date) (tmpl : String)
    (env : Nat → IterEnv) (j : Nat) (h : j < days)
    (hsucc : (iterAt (run_batch_job days start (.ok tmpl) env) j).err = none) :
    ∀ fs1 fs2 : FileSys,
      applyBatch fs1 (run_batch_job days start (.ok tmpl) env)
          (jsonPathOf (fmtISO (addDays start j))) =
        applyBatch fs2 (run_batch_job days start (.ok tmpl) env)
          (jsonPathOf (fmtISO (addDays start j))) ∧
      (applyBatch fs1 (run_batch_job days start (.ok tmpl) env)
          (jsonPathOf (fmtISO (addDays start j)))).isSome = true := by
  intro fs1 fs2
  have hmem := json_path_mem_batch days start tmpl env j h hsucc
  exact ⟨applyWrites_mem_indep _ _ fs1 fs2 hmem,
    applyWrites_mem_isSome _ _ fs1 hmem⟩

/-- Witness for claim C7: a concrete one-day run occupies the date's JSON
path starting from an empty file system. -/
theorem c7_witness :
    (applyBatch (fun _ => none) (run_batch_job 1 d0 (.ok "x") envSucc)
      (jsonPathOf (fmtISO (addDays d0 0)))).isSome = true :=
  ((c7_persist_overwrites 1 d0 "x" envSucc 0 (by decide) (by decide))
    (fun _ => none) (fun _ => none)).2

lemma take_isPrefixOf {α : Type} [BEq α] [LawfulBEq α] :
    ∀ (n : Nat) (l : List α), List.isPrefixOf (l.take n) l = true := by
  intro n l
  induction l generalizing n with
  | nil => cases n <;> rfl
  | cons a as ih =>
    cases n with
    | zero => rfl
    | succ m =>
      show (a == a && List.isPrefixOf (as.take m) as) = true
      rw [beq_self_eq_true, Bool.true_and]
      exact ih m

/-- Claim C9, counterexample to the claim as stated.  The claim says that
when an iteration fails after the JSON dump, the date's JSON file remains
on disk while the HTML file is absent.  But `open(html_filename, 'w')` at
line 154 creates/truncates the file before `f.write` can fail, so a write
interrupted after a successful open leaves a truncated HTML file on disk:
in this run the iteration fails after the JSON dump, the JSON file is
present, and the HTML path is written too — occupied even on an initially
empty file system. -/
theorem c9_counterexample :
    (iterAt (run_batch_job 1 d0 (.ok "x") envHtmlMid) 0).err ≠ none ∧
    jsonPathOf "2024-01-01" ∈
      (iterAt (run_batch_job 1 d0 (.ok "x") envHtmlMid) 0).writes.map Prod.fst ∧
    htmlPathOf "2024-01-01" ∈
      (iterAt (run_batch_job 1 d0 (.ok "x") envHtmlMid) 0).writes.map Prod.fst ∧
    (applyBatch (fun _ => none) (run_batch_job 1 d0 (.ok "x") envHtmlMid)
      (htmlPathOf "2024-01-01")).isSome = true := by
  decide

/-- Claim C9, amended.  Iterations are not atomic on error: whenever the
generative call of iteration `j` succeeded with a `title` field but the
iteration still failed, the title has already been appended to the
exclusion list (`titlesAfter = excludeUsed ++ [t]`); and if the failed
iteration's writes include the date's JSON path (the failure happened at
or after the line-137 JSON dump), the complete enriched record is at the
JSON path, while the HTML path holds no complete page of its own: either
the iteration wrote nothing there (failure before a successful open of the
HTML file), or what it wrote is a truncated prefix of the rendered HTML
left by an interrupted write. -/
theorem c9_iteration_not_atomic_amended (days : Nat) (start : Date)
    (tmpl : String) (env : Nat → IterEnv) (j : Nat) (b : Dict) (t : String)
    (h : j < days) (hg : (env j).gen = .ok b)
    (ht : dictGet b "title" = some t)
    (herr : (iterAt (run_batch_job days start (.ok tmpl) env) j).err ≠ none) :
    (iterAt (run_batch_job days start (.ok tmpl) env) j).titlesAfter =
      (iterAt (run_batch_job days start (.ok tmpl) env) j).excludeUsed ++ [t] ∧
    (jsonPathOf (fmtISO (addDays start j)) ∈
        (iterAt (run_batch_job days start (.ok tmpl) env) j).writes.map Prod.fst →
      ∃ b', (iterAt (run_batch_job days start (.ok tmpl) env) j).enriched = some b' ∧
        (jsonPathOf (fmtISO (addDays start j)), FileContent.jsonFile b') ∈
          (iterAt (run_batch_job days start (.ok tmpl) env) j).writes ∧
        ((iterAt (run_batch_job days start (.ok tmpl) env) j).writes.map Prod.fst =
            [jsonPathOf (fmtISO (addDays start j))] ∨
         ∃ full content,
           renderHtml tmpl b' (fmtDisplay (addDays start j)) = .ok full ∧
           (htmlPathOf (fmtISO (addDays start j)), FileContent.htmlFile content) ∈
             (iterAt (run_batch_job days start (.ok tmpl) env) j).writes ∧
           List.isPrefixOf content.data full.data = true)) := by
  rw [iterAt_run days start tmpl env j h] at herr ⊢
  constructor
  · rw [iterOne_titlesAfter_of_title tmpl start j _ (env j) b t hg ht,
      iterOne_excludeUsed]
  · intro hmem
    rcases iterOne_err_writes tmpl start j _ (env j) herr with
      hws | ⟨b', henr, hws | ⟨full, n, hrend, hws⟩⟩
    · rw [hws] at hmem; simp at hmem
    · refine ⟨b', henr, ?_, Or.inl ?_⟩
      · rw [hws]; simp
      · rw [hws]; rfl
    · refine ⟨b', henr, ?_, Or.inr ⟨full, strTake full n, hrend, ?_, ?_⟩⟩
      · rw [hws]; simp
      · rw [hws]; simp
      · show List.isPrefixOf (full.data.take n) full.data = true
        exact take_isPrefixOf n full.data

/-- Witness for the amended claim C9 at a concrete run whose iteration's
HTML write is interrupted after the generative call and JSON dump
succeeded. -/
theorem c9_witness :
    (iterAt (run_batch_job 1 d0 (.ok "x") envHtmlMid) 0).titlesAfter =
      (iterAt (run_batch_job 1 d0 (.ok "x") envHtmlMid) 0).excludeUsed
        ++ ["Book A"] :=
  (c9_iteration_not_atomic_amended 1 d0 "x" envHtmlMid 0 bookFull "Book A"
    (by decide) rfl (by decide) (by decide)).1

/-- Claim C10.  A generative response that merely lacks the `isbn` key
never fails the iteration at the cover-enrichment step: the cover lookup
runs with the empty string as ISBN (via the defaulted `book.get` access)
and, when everything else is in order, the iteration completes with the
record's `cover_url` equal to `get_cover_url ""` of the check outcome —
the placeholder whenever the existence check does not report success.  By
contrast, every field in `requiredKeys` is accessed by direct indexing, so
its absence raises and abandons the iteration. -/
theorem c10_isbn_defaulted_access (days : Nat) (start : Date) (tmpl : String)
    (env : Nat → IterEnv) (j : Nat) (b : Dict)
    (h : j < days) (hg : (env j).gen = .ok b) :
    (dictGet b "isbn" = none →
      (∀ k ∈ requiredKeys, (dictGet b k).isSome) →
      (env j).jsonOk = true → (env j).htmlW = WriteOutcome.ok →
      (iterAt (run_batch_job days start (.ok tmpl) env) j).err = none ∧
      ∃ b', (iterAt (run_batch_job days start (.ok tmpl) env) j).enriched = some b' ∧
        dictGet b' "cover_url" = some (get_cover_url "" (env j).hd) ∧
        ((env j).hd ≠ .status 200 →
          dictGet b' "cover_url" = some PLACEHOLDER_URL)) ∧
    (∀ k ∈ requiredKeys, dictGet b k = none →
      ((iterAt (run_batch_job days start (.ok tmpl) env) j).err).isSome = true) := by
  constructor
  · intro hisbn hall hjson hhtml
    rw [iterAt_run days start tmpl env j h]
    have hd0 : dictGetD b "isbn" "" = "" := by simp [dictGetD, hisbn]
    have ht0 := hall "title" (by decide)
    cases ht : dictGet b "title" with
    | none => rw [ht] at ht0; simp at ht0
    | some t =>
      have ha0 := hall "author" (by decide)
      cases ha : dictGet b "author" with
      | none => rw [ha] at ha0; simp at ha0
      | some a =>
        have hA : dictGet (dictSet b "cover_url"
            (get_cover_url (dictGetD b "isbn" "") (env j).hd)) "author" = some a := by
          rw [dictGet_dictSet_ne _ _ _ _ (by decide)]; exact ha
        have hpres : ∀ p ∈ renderSlots,
            (dictGet (dictSet (dictSet (dictSet (dictSet b "cover_url"
              (get_cover_url (dictGetD b "isbn" "") (env j).hd))
              "buy_link" (generate_affiliate_link t a))
              "date_display" (fmtDisplay (addDays start j)))
              "date_id" (fmtISO (addDays start j))) p.2).isSome := by
          intro p hp
          fin_cases hp <;> dsimp only
          · rw [dictGet_enrich_other _ _ _ _ _ _ (by decide) (by decide)
              (by decide) (by decide)]
            exact hall _ (by decide)
          · rw [dictGet_enrich_other _ _ _ _ _ _ (by decide) (by decide)
              (by decide) (by decide)]
            exact hall _ (by decide)
          · rw [dictGet_enrich_other _ _ _ _ _ _ (by decide) (by decide)
              (by decide) (by decide)]
            exact hall _ (by decide)
          · rw [dictGet_enrich_other _ _ _ _ _ _ (by decide) (by decide)
              (by decide) (by decide)]
            exact hall _ (by decide)
          · rw [dictGet_enrich_other _ _ _ _ _ _ (by decide) (by decide)
              (by decide) (by decide)]
            exact hall _ (by decide)
          · rw [dictGet_enrich_cover]; rfl
          · rw [dictGet_enrich_other _ _ _ _ _ _ (by decide) (by decide)
              (by decide) (by decide)]
            exact hall _ (by decide)
          · rw [dictGet_enrich_other _ _ _ _ _ _ (by decide) (by decide)
              (by decide) (by decide)]
            exact hall _ (by decide)
          · rw [dictGet_enrich_other _ _ _ _ _ _ (by decide) (by decide)
              (by decide) (by decide)]
            exact hall _ (by decide)
          · rw [dictGet_enrich_other _ _ _ _ _ _ (by decide) (by decide)
              (by decide) (by decide)]
            exact hall _ (by decide)
          · rw [dictGet_enrich_buy]; rfl
        obtain ⟨htmlOut, hrc⟩ := renderChain_ok_of_present _ renderSlots tmpl hpres
        have hrh : renderHtml tmpl
            (dictSet (dictSet (dictSet (dictSet b "cover_url"
              (get_cover_url (dictGetD b "isbn" "") (env j).hd))
              "buy_link" (generate_affiliate_link t a))
              "date_display" (fmtDisplay (addDays start j)))
              "date_id" (fmtISO (addDays start j)))
            (fmtDisplay (addDays start j)) =
            .ok (pyReplace htmlOut "\x7b\x7bDATE\x7d\x7d"
              (fmtDisplay (addDays start j))) := by
          simp [renderHtml, hrc]
        simp only [iterOne, hg, ht, hA, hjson, hrh, hhtml, if_true]
        refine ⟨by simp, _, rfl, ?_, ?_⟩
        · rw [hd0, dictGet_enrich_cover]
        · intro hne
          rw [hd0, dictGet_enrich_cover, get_cover_url_non200 _ _ hne]
  · intro k hk hnone
    rw [iterAt_run days start tmpl env j h]
    cases ht : dictGet b "title" with
    | none => simp [iterOne, hg, ht]
    | some t =>
      cases ha : dictGet b "author" with
      | none =>
        have hA : dictGet (dictSet b "cover_url"
            (get_cover_url (dictGetD b "isbn" "") (env j).hd)) "author" = none := by
          rw [dictGet_dictSet_ne _ _ _ _ (by decide)]; exact ha
        simp [iterOne, hg, ht, hA]
      | some a =>
        have hA : dictGet (dictSet b "cover_url"
            (get_cover_url (dictGetD b "isbn" "") (env j).hd)) "author" = some a := by
          rw [dictGet_dictSet_ne _ _ _ _ (by decide)]; exact ha
        cases hjs : (env j).jsonOk with
        | false => simp [iterOne, hg, ht, hA, hjs]
        | true =>
          obtain ⟨hne1, hne2, hne3, hne4, hmemslots⟩ := requiredKeys_facts k hk
          obtain ⟨p, hpmem, hpsnd⟩ := List.mem_map.mp hmemslots
          have hbook4 : dictGet (dictSet (dictSet (dictSet (dictSet b "cover_url"
              (get_cover_url (dictGetD b "isbn" "") (env j).hd))
              "buy_link" (generate_affiliate_link t a))
              "date_display" (fmtDisplay (addDays start j)))
              "date_id" (fmtISO (addDays start j))) p.2 = none := by
            rw [hpsnd, dictGet_enrich_other _ _ _ _ _ _ hne1 hne2 hne3 hne4]
            exact hnone
          obtain ⟨er, her⟩ := renderChain_error_of_missing _ renderSlots tmpl
            ⟨p, hpmem, hbook4⟩
          have hrh : renderHtml tmpl
              (dictSet (dictSet (dictSet (dictSet b "cover_url"
                (get_cover_url (dictGetD b "isbn" "") (env j).hd))
                "buy_link" (generate_affiliate_link t a))
                "date_display" (fmtDisplay (addDays start j)))
                "date_id" (fmtISO (addDays start j)))
              (fmtDisplay (addDays start j)) = .error er := by
            simp [renderHtml, her]
          simp [iterOne, hg, ht, hA, hjs, hrh]

/-- Witness for claim C10 at a concrete run whose generative response lacks
only the `isbn` field: the iteration still succeeds. -/
theorem c10_witness :
    (iterAt (run_batch_job 1 d0 (.ok "x") envNoIsbn) 0).err = none :=
  (((c10_isbn_defaulted_access 1 d0 "x" envNoIsbn 0 bookNoIsbn
    (by decide) rfl).1 (by decide)
    (by intro k hk; fin_cases hk <;> decide) rfl rfl)).1
